import Mathlib

/-!
Verification of the Thumbnail ingestion service.

Shallow embedding of the core logic of the Thumbnail repository
(frame classification, freeze detection, metrics recording, archive-key
construction and request normalization) together with proofs of the
specified properties.

The repository consists of several near-duplicate variants of the same
service; definitions below are suffixed `V1` .. `V5` after the variant
they embed:
* `V1`: first section of `src/app.js` (freeze detection, ok counter,
  latest-timestamp gauge);
* `V2`: second section of `src/app.js` (ok/black/corrupt classification
  via mean luminance);
* `V3`: third section of `src/app.js` (ok/black/corrupt classification
  via black-pixel ratio, `analyzeImage`);
* `V4`: `src/unnamed/part_000` (quality-tier mapping, quality-labelled keys);
* `V5`: `src/unnamed/part_001` (date-partitioned keys).
-/

set_option autoImplicit false

namespace Thumbnail

/- ## Key-value maps

The JavaScript source keeps per-key freeze state in two `Map` objects and
the Prometheus client keeps one sample per label set.  We model a map as an
association list observed only through `lookupKV` (the first binding for a
key wins); `insertKV` conses a fresh binding (`Map.set` semantics w.r.t.
`get`/`has`), `eraseKV` removes every binding of the key (`Map.delete`). -/

def lookupKV {α β : Type} [DecidableEq α] : List (α × β) → α → Option β
  | [], _ => none
  | (k', v) :: rest, k => if k' = k then some v else lookupKV rest k

def insertKV {α β : Type} [DecidableEq α] (k : α) (v : β) (l : List (α × β)) :
    List (α × β) :=
  (k, v) :: l

def eraseKV {α β : Type} [DecidableEq α] (k : α) : List (α × β) → List (α × β)
  | [] => []
  | (k', v) :: rest => if k' = k then eraseKV k rest else (k', v) :: eraseKV k rest

/-- `Map.has` / `Counter` default: current count of a label, 0 if absent. -/
def getCount {α : Type} [DecidableEq α] (l : List (α × ℕ)) (k : α) : ℕ :=
  (lookupKV l k).getD 0

/-- `Counter.inc { labels }`: bump the per-label count by one. -/
def bumpKV {α : Type} [DecidableEq α] (k : α) (l : List (α × ℕ)) :
    List (α × ℕ) :=
  insertKV k (getCount l k + 1) l

@[simp] theorem lookupKV_nil {α β : Type} [DecidableEq α] (k : α) :
    lookupKV ([] : List (α × β)) k = none := rfl

@[simp] theorem lookupKV_cons {α β : Type} [DecidableEq α]
    (k' : α) (v : β) (rest : List (α × β)) (k : α) :
    lookupKV ((k', v) :: rest) k = if k' = k then some v else lookupKV rest k := rfl

@[simp] theorem lookupKV_insert_self {α β : Type} [DecidableEq α]
    (k : α) (v : β) (l : List (α × β)) :
    lookupKV (insertKV k v l) k = some v := by
  simp [insertKV]

theorem lookupKV_insert_ne {α β : Type} [DecidableEq α]
    (k k' : α) (v : β) (l : List (α × β)) (h : k ≠ k') :
    lookupKV (insertKV k v l) k' = lookupKV l k' := by
  simp [insertKV, h]

@[simp] theorem lookupKV_erase_self {α β : Type} [DecidableEq α]
    (k : α) (l : List (α × β)) :
    lookupKV (eraseKV k l) k = none := by
  induction l with
  | nil => rfl
  | cons p rest ih =>
    obtain ⟨pk, pv⟩ := p
    by_cases h : pk = k
    · simpa [eraseKV, h] using ih
    · simp [eraseKV, h, ih]

theorem lookupKV_erase_ne {α β : Type} [DecidableEq α]
    (k k' : α) (l : List (α × β)) (h : k ≠ k') :
    lookupKV (eraseKV k l) k' = lookupKV l k' := by
  induction l with
  | nil => rfl
  | cons p rest ih =>
    obtain ⟨pk, pv⟩ := p
    by_cases hpk : pk = k
    · subst hpk
      simp [eraseKV, h, ih]
    · by_cases hpk' : pk = k'
      · simp [eraseKV, hpk, hpk', Ne.symm h]
      · simp [eraseKV, hpk, hpk', ih]

theorem mem_of_lookupKV {α β : Type} [DecidableEq α]
    (l : List (α × β)) (k : α) (v : β) (h : lookupKV l k = some v) :
    (k, v) ∈ l := by
  induction l with
  | nil => simp at h
  | cons p rest ih =>
    obtain ⟨pk, pv⟩ := p
    simp only [lookupKV_cons] at h
    by_cases hk : pk = k
    · subst hk
      simp at h
      subst h; exact List.mem_cons_self _ _
    · rw [if_neg hk] at h
      exact List.mem_cons_of_mem _ (ih h)

theorem isSome_lookupKV_insert {α β : Type} [DecidableEq α]
    (k k' : α) (v : β) (l : List (α × β))
    (h : (lookupKV l k').isSome) :
    (lookupKV (insertKV k v l) k').isSome := by
  by_cases hk : k = k'
  · subst hk; simp
  · rwa [lookupKV_insert_ne _ _ _ _ hk]

/- ## Quality-tier mapping (`mapResolutionToQuality`, src/unnamed/part_000)

JavaScript strict equality `width === 854` is false whenever `width` is
`null`/`undefined`, so missing dimensions are modelled as `none`. -/

def mapResolutionToQuality (width height : Option ℤ) : String :=
  if width = some 854 ∧ height = some 480 then "high"
  else if width = some 640 ∧ height = some 360 then "med"
  else if width = some 426 ∧ height = some 240 then "low"
  else "unknown"

/- ## Images and the frame classifier

A decoded bitmap: `pixels` lists the RGBA scan data as (r, g, b) channel
triples over a `width × height` frame.  A submitted payload either decodes
to such a bitmap or fails to decode (`Jimp.read` throws); undecodable bytes
still carry their raw content. -/

structure Image where
  width : ℕ
  height : ℕ
  pixels : List (ℕ × ℕ × ℕ)
deriving DecidableEq

inductive Bytes where
  /-- A payload `Jimp.read` rejects, whatever its raw content. -/
  | undecodable (raw : List ℕ)
  /-- A payload that decodes to the given bitmap. -/
  | decodable (img : Image)
deriving DecidableEq

/-- The decode step (`await Jimp.read(buffer)`): `none` means the read threw. -/
def decode : Bytes → Option Image
  | .undecodable _ => none
  | .decodable img => some img

/-- `isBlackFrame` (V2): mean of per-pixel `(r+g+b)/3` over `width*height`,
compared strictly against the threshold 10. -/
def meanLuminance (img : Image) : ℚ :=
  (img.pixels.foldl (fun total p => total + ((p.1 : ℚ) + p.2.1 + p.2.2) / 3) 0) /
    ((img.width : ℚ) * (img.height : ℚ))

def isBlackFrame (img : Image) : Bool :=
  decide (meanLuminance img < 10)

/-- V2 classification (`app.post("/thumbnail")`, second variant): decode
failure → "corrupt"; otherwise "black" iff `isBlackFrame`, else "ok". -/
def classifyV2 (b : Bytes) : String :=
  match decode b with
  | none => "corrupt"
  | some img => if isBlackFrame img then "black" else "ok"

/-- Fraction of pixels with all three channels strictly below 10 (V3). -/
def blackRatio (img : Image) : ℚ :=
  ((img.pixels.countP (fun p => decide (p.1 < 10 ∧ p.2.1 < 10 ∧ p.2.2 < 10)) : ℚ)) /
    ((img.width : ℚ) * (img.height : ℚ))

/-- `analyzeImage` (V3): decode failure → "corrupt"; black-pixel ratio
strictly above 0.9 → "black"; otherwise "ok". -/
def analyzeImage (b : Bytes) : String :=
  match decode b with
  | none => "corrupt"
  | some img => if blackRatio img > 9 / 10 then "black" else "ok"

/- ## Freeze detector (V1, src/app.js lines 58-132)

Per-key state lives in two JS `Map`s keyed by the composite string
`streamId + ":" + feedId`; the Prometheus samples are labelled by the
`(streamId, feedId)` pair.  Times are rationals standing for the
millisecond values returned by `Date.now()`; the several `Date.now()`
calls inside one request are modelled as the single instant `now` of that
call.  The histogram is modelled by the list of its observations (most
recent first). -/

def lastKeyOf (streamId feedId : String) : String :=
  streamId ++ ":" ++ feedId

structure SysState where
  lastFrames : List (String × String)
  freezeState : List (String × ℚ)
  freezeTotal : List ((String × String) × ℕ)
  freezeActiveV : List ((String × String) × ℕ)
  freezeDurationObs : List ((String × String) × ℚ)
deriving DecidableEq

def initState : SysState :=
  { lastFrames := [], freezeState := [], freezeTotal := [],
    freezeActiveV := [], freezeDurationObs := [] }

/-- The freeze-detection block of the V1 `POST /thumbnail` handler.

`hash?` is the result of `await hashImage(buffer)`: `none` means the
perceptual-hash computation threw, in which case the surrounding
`try/catch` logs the error and the whole block is a no-op with
`isFreeze` left `false`.  Returns `(isFreeze, new state)`. -/
def detectFreeze (streamId feedId : String) (hash? : Option String) (now : ℚ)
    (st : SysState) : Bool × SysState :=
  match hash? with
  | none => (false, st)
  | some newHash =>
    let lastKey := lastKeyOf streamId feedId
    match lookupKV st.lastFrames lastKey with
    | some prevHash =>
      if newHash = prevHash then
        -- frame unchanged → freeze detected: freezeCounter.inc first,
        -- then start the timer only if not already active
        let st1 := { st with freezeTotal := bumpKV (streamId, feedId) st.freezeTotal }
        let st2 :=
          if (lookupKV st1.freezeState lastKey).isSome then st1
          else { st1 with
                 freezeState := insertKV lastKey now st1.freezeState,
                 freezeActiveV := insertKV (streamId, feedId) 1 st1.freezeActiveV }
        (true, { st2 with lastFrames := insertKV lastKey newHash st2.lastFrames })
      else
        -- frame changed → freeze ended (observe duration, clear timer)
        let st1 :=
          match lookupKV st.freezeState lastKey with
          | some started =>
            { st with
              freezeDurationObs :=
                ((streamId, feedId), (now - started) / 1000) :: st.freezeDurationObs,
              freezeState := eraseKV lastKey st.freezeState,
              freezeActiveV := insertKV (streamId, feedId) 0 st.freezeActiveV }
          | none => st
        (false, { st1 with lastFrames := insertKV lastKey newHash st1.lastFrames })
    | none =>
      (false, { st with lastFrames := insertKV lastKey newHash st.lastFrames })

/- ## ISO-8601 timestamps (`new Date(ms).toISOString()`)

`civilFromDays` is the standard Gregorian days-to-civil-date computation
(valid for days ≥ 0, i.e. instants at or after 1970-01-01), matching the
UTC calendar JavaScript `Date` uses. -/

def pad2 (n : ℕ) : String :=
  if n < 10 then "0" ++ toString n else toString n

def pad3 (n : ℕ) : String :=
  if n < 10 then "00" ++ toString n
  else if n < 100 then "0" ++ toString n
  else toString n

def civilFromDays (days : ℕ) : ℕ × ℕ × ℕ :=
  let z := days + 719468
  let era := z / 146097
  let doe := z % 146097
  let yoe := (doe - doe / 1460 + doe / 36524 - doe / 146097) / 365
  let y := yoe + era * 400
  let doy := doe - (365 * yoe + yoe / 4 - yoe / 100)
  let mp := (5 * doy + 2) / 153
  let d := doy - (153 * mp + 2) / 5 + 1
  let m := if mp < 10 then mp + 3 else mp - 9
  (if m ≤ 2 then y + 1 else y, m, d)

def toISOString (ms : ℕ) : String :=
  let s := ms / 1000
  let days := s / 86400
  let secOfDay := s % 86400
  let ymd := civilFromDays days
  toString ymd.1 ++ "-" ++ pad2 ymd.2.1 ++ "-" ++ pad2 ymd.2.2 ++
    "T" ++ pad2 (secOfDay / 3600) ++ ":" ++ pad2 (secOfDay % 3600 / 60) ++
    ":" ++ pad2 (secOfDay % 60) ++ "." ++ pad3 (ms % 1000) ++ "Z"

/- ## Request normalization (V1 `POST /thumbnail`, src/app.js lines 73-96)

A request is either a JSON body (fields possibly absent), a raw
`image/jpeg` body with optional `X-Millicast-*` headers, or some other
content type.  JavaScript `x || d` falls back to `d` on any falsy `x`,
so the empty string and the number 0 also trigger the defaults. -/

inductive RequestV1 where
  | json (feedId streamId : Option String) (timestamp : Option ℕ)
      (thumbnail : Option Bytes)
  | raw (body : Bytes) (feedIdHeader streamIdHeader : Option String)
      (timestampHeader : Option ℕ)
  | other
deriving DecidableEq

structure Submission where
  buffer : Bytes
  feedId : String
  streamId : String
  timestamp : ℕ
deriving DecidableEq

/-- JS `x || d` for an optional string field. -/
def orDefaultStr (x : Option String) (d : String) : String :=
  match x with
  | none => d
  | some s => if s = "" then d else s

/-- JS `x || now` for an optional millisecond timestamp (0 is falsy). -/
def orDefaultTime (x : Option ℕ) (now : ℕ) : ℕ :=
  match x with
  | none => now
  | some t => if t = 0 then now else t

/-- Input handling of the V1 handler: JSON without a `thumbnail` field and
unsupported content types are rejected with HTTP 400; otherwise the ids
and timestamp are defaulted and a `Submission` is produced. -/
def parseSubmissionV1 (req : RequestV1) (now : ℕ) : Except ℕ Submission :=
  match req with
  | .json f s t thumb =>
    match thumb with
    | none => .error 400
    | some b =>
      .ok { buffer := b, feedId := orDefaultStr f "unknown",
            streamId := orDefaultStr s "unknown",
            timestamp := orDefaultTime t now }
  | .raw b f s t =>
    .ok { buffer := b, feedId := orDefaultStr f "testfeed",
          streamId := orDefaultStr s "teststream",
          timestamp := orDefaultTime t now }
  | .other => .error 400

/- ## V1 metrics and handler (src/app.js lines 134-149)

After a successful upload the V1 handler increments `thumbnails_ok_total`
and sets `thumbnail_latest_timestamp_seconds` to
`Math.floor(Date.now() / 1000)`.  The S3 upload is an external
collaborator modelled as succeeding. -/

structure MetricsV1 where
  okTotal : List ((String × String) × ℕ)
  latest : List ((String × String) × ℕ)
deriving DecidableEq

def initMetricsV1 : MetricsV1 := { okTotal := [], latest := [] }

structure ResponseV1 where
  httpStatus : ℕ
  key : Option String
  freeze : Option Bool
deriving DecidableEq

/-- The V1 `POST /thumbnail` handler: normalize the request, build the
archive key `streamId/feedId/iso.jpg`, run freeze detection (recovering a
hashing failure as `isFreeze = false`), upload, then record metrics. -/
def handleThumbnailV1 (req : RequestV1) (hash? : Option String) (now : ℕ)
    (st : SysState) (m : MetricsV1) : ResponseV1 × SysState × MetricsV1 :=
  match parseSubmissionV1 req now with
  | .error code => ({ httpStatus := code, key := none, freeze := none }, st, m)
  | .ok sub =>
    let key := sub.streamId ++ "/" ++ sub.feedId ++ "/" ++
      toISOString sub.timestamp ++ ".jpg"
    let fr := detectFreeze sub.streamId sub.feedId hash? (now : ℚ) st
    let m' := { okTotal := bumpKV (sub.streamId, sub.feedId) m.okTotal,
                latest := insertKV (sub.streamId, sub.feedId) (now / 1000) m.latest }
    ({ httpStatus := 200, key := some key, freeze := some fr.1 }, fr.2, m')

/- ## V2 metrics recording (src/app.js lines 339-346) -/

structure MetricsV3 where
  okTotal : List ((String × String) × ℕ)
  blackTotal : List ((String × String) × ℕ)
  corruptTotal : List ((String × String) × ℕ)
deriving DecidableEq

def initMetricsV3 : MetricsV3 :=
  { okTotal := [], blackTotal := [], corruptTotal := [] }

/-- The `if/else if/else if` chain of the V2 handler updating the
Prometheus counters for the computed status. -/
def recordStatusV2 (status : String) (feedId streamId : String)
    (m : MetricsV3) : MetricsV3 :=
  if status = "ok" then
    { m with okTotal := bumpKV (feedId, streamId) m.okTotal }
  else if status = "black" then
    { m with blackTotal := bumpKV (feedId, streamId) m.blackTotal }
  else if status = "corrupt" then
    { m with corruptTotal := bumpKV (feedId, streamId) m.corruptTotal }
  else m

/- ## V3 handler (src/app.js lines 485-541)

The webhook body carries `feedId`, `streamId`, a millisecond `timestamp`
and a base64 `thumbnail`; base64 decoding is part of the external
normalizer, so the submission carries the decoded `Bytes` directly.
Signature verification and the S3 upload are external collaborators.
The counter chain of V3 is `if ok / else if black / else corrupt`. -/

structure SubmissionV3 where
  feedId : String
  streamId : String
  timestamp : ℕ
  thumbnail : Bytes
deriving DecidableEq

def recordStatusV3 (status : String) (feedId streamId : String)
    (m : MetricsV3) : MetricsV3 :=
  if status = "ok" then
    { m with okTotal := bumpKV (feedId, streamId) m.okTotal }
  else if status = "black" then
    { m with blackTotal := bumpKV (feedId, streamId) m.blackTotal }
  else
    { m with corruptTotal := bumpKV (feedId, streamId) m.corruptTotal }

/-- The V3 `POST /thumbnail` handler after signature verification:
analyze, update counters, build the archive key
`feedId/streamId/iso.jpg`, upload.  Returns `(status, key, metrics)`. -/
def handleThumbnailV3 (sub : SubmissionV3) (m : MetricsV3) :
    String × String × MetricsV3 :=
  let status := analyzeImage sub.thumbnail
  let m' := recordStatusV3 status sub.feedId sub.streamId m
  let key := sub.feedId ++ "/" ++ sub.streamId ++ "/" ++
    toISOString sub.timestamp ++ ".jpg"
  (status, key, m')

/- ## Further map lemmas used by the invariant proofs -/

@[simp] theorem getCount_bump_self {α : Type} [DecidableEq α]
    (k : α) (l : List (α × ℕ)) :
    getCount (bumpKV k l) k = getCount l k + 1 := by
  simp [bumpKV, getCount]

theorem mem_of_mem_eraseKV {α β : Type} [DecidableEq α]
    (k : α) (l : List (α × β)) (p : α × β) (h : p ∈ eraseKV k l) : p ∈ l := by
  induction l with
  | nil => exact absurd h (List.not_mem_nil p)
  | cons q rest ih =>
    obtain ⟨qk, qv⟩ := q
    by_cases hq : qk = k
    · simp only [eraseKV, if_pos hq] at h
      exact List.mem_cons_of_mem _ (ih h)
    · simp only [eraseKV, if_neg hq] at h
      rcases List.mem_cons.mp h with h1 | h2
      · exact h1 ▸ List.mem_cons_self _ _
      · exact List.mem_cons_of_mem _ (ih h2)

/- ## Claim theorems -/

/-- Claim C5: the quality-tier mapping is a pure total function of the
optional `(width, height)` pair: 854×480 yields "high", 640×360 yields
"med", 426×240 yields "low", and every other pair, including missing
dimensions, yields "unknown". -/
theorem quality_tier_mapping (w h : Option ℤ)
    (hother : ¬((w = some 854 ∧ h = some 480) ∨ (w = some 640 ∧ h = some 360) ∨
      (w = some 426 ∧ h = some 240))) :
    mapResolutionToQuality (some 854) (some 480) = "high" ∧
    mapResolutionToQuality (some 640) (some 360) = "med" ∧
    mapResolutionToQuality (some 426) (some 240) = "low" ∧
    mapResolutionToQuality none none = "unknown" ∧
    mapResolutionToQuality w h = "unknown" := by
  refine ⟨by decide, by decide, by decide, by decide, ?_⟩
  simp only [mapResolutionToQuality]
  split_ifs with h1 h2 h3
  · exact absurd (Or.inl h1) hother
  · exact absurd (Or.inr (Or.inl h2)) hother
  · exact absurd (Or.inr (Or.inr h3)) hother
  · rfl

theorem quality_tier_mapping_witness :
    mapResolutionToQuality (some 100) (some 100) = "unknown" :=
  (quality_tier_mapping (some 100) (some 100) (by decide)).2.2.2.2

/-- Claim C2: classification precedence corrupt > black > ok: whenever the
bytes fail to decode the status is "corrupt" regardless of their raw
content, and the black-frame analysis result is consulted only when
decoding succeeded (in both the V2 and the V3 classifier). -/
theorem classification_precedence (b : Bytes) :
    (decode b = none → analyzeImage b = "corrupt" ∧ classifyV2 b = "corrupt") ∧
    (∀ img, decode b = some img →
      analyzeImage b = (if blackRatio img > 9 / 10 then "black" else "ok") ∧
      classifyV2 b = (if isBlackFrame img then "black" else "ok")) := by
  constructor
  · intro hd
    simp [analyzeImage, classifyV2, hd]
  · intro img hd
    simp [analyzeImage, classifyV2, hd]

theorem classification_precedence_witness :
    analyzeImage (Bytes.undecodable [0, 0, 0]) = "corrupt" ∧
    classifyV2 (Bytes.undecodable [0, 0, 0]) = "corrupt" ∧
    analyzeImage (Bytes.decodable ⟨1, 1, [(255, 255, 255)]⟩) = "ok" := by
  have h1 := (classification_precedence (Bytes.undecodable [0, 0, 0])).1 rfl
  have h2 := (classification_precedence
    (Bytes.decodable ⟨1, 1, [(255, 255, 255)]⟩)).2 ⟨1, 1, [(255, 255, 255)]⟩ rfl
  have hnb : ¬ blackRatio ⟨1, 1, [(255, 255, 255)]⟩ > 9 / 10 := by
    norm_num [blackRatio, List.countP, List.countP.go]
  refine ⟨h1.1, h1.2, ?_⟩
  rw [h2.1, if_neg hnb]

/-- Claim C9: the black-frame decision uses strict comparisons at the
thresholds: a frame with mean luminance exactly 10 is not black in the V2
policy (the test is `avg < 10`), and a frame with black-pixel ratio
exactly 0.9 classifies "ok" in the V3 policy (the test is
`blackRatio > 0.9`). -/
theorem black_threshold_boundary (img : Image) :
    (meanLuminance img = 10 → isBlackFrame img = false ∧
      classifyV2 (Bytes.decodable img) = "ok") ∧
    (blackRatio img = 9 / 10 → analyzeImage (Bytes.decodable img) = "ok") := by
  constructor
  · intro hm
    have hlt : ¬ meanLuminance img < 10 := by rw [hm]; exact lt_irrefl 10
    refine ⟨by simp [isBlackFrame, hlt], ?_⟩
    simp [classifyV2, decode, isBlackFrame, hlt]
  · intro hr
    have hlt : ¬ blackRatio img > 9 / 10 := by rw [hr]; exact lt_irrefl _
    simp [analyzeImage, decode, hlt]

theorem black_threshold_boundary_witness :
    meanLuminance ⟨1, 1, [(10, 10, 10)]⟩ = 10 ∧
    isBlackFrame ⟨1, 1, [(10, 10, 10)]⟩ = false ∧
    blackRatio ⟨10, 1, [(0, 0, 0), (0, 0, 0), (0, 0, 0), (0, 0, 0), (0, 0, 0),
      (0, 0, 0), (0, 0, 0), (0, 0, 0), (0, 0, 0), (255, 255, 255)]⟩ = 9 / 10 ∧
    analyzeImage (Bytes.decodable ⟨10, 1, [(0, 0, 0), (0, 0, 0), (0, 0, 0),
      (0, 0, 0), (0, 0, 0), (0, 0, 0), (0, 0, 0), (0, 0, 0), (0, 0, 0),
      (255, 255, 255)]⟩) = "ok" := by
  have hm : meanLuminance ⟨1, 1, [(10, 10, 10)]⟩ = 10 := by
    norm_num [meanLuminance, List.foldl]
  have hr : blackRatio ⟨10, 1, [(0, 0, 0), (0, 0, 0), (0, 0, 0), (0, 0, 0),
      (0, 0, 0), (0, 0, 0), (0, 0, 0), (0, 0, 0), (0, 0, 0),
      (255, 255, 255)]⟩ = 9 / 10 := by
    norm_num [blackRatio, List.countP, List.countP.go]
  have h1 := (black_threshold_boundary ⟨1, 1, [(10, 10, 10)]⟩).1 hm
  have h2 := (black_threshold_boundary ⟨10, 1, [(0, 0, 0), (0, 0, 0), (0, 0, 0),
      (0, 0, 0), (0, 0, 0), (0, 0, 0), (0, 0, 0), (0, 0, 0), (0, 0, 0),
      (255, 255, 255)]⟩).2 hr
  exact ⟨hm, h1.1, hr, h2⟩

/-- Claim C10: a JSON submission containing a thumbnail but missing any of
`feedId`, `streamId` or `timestamp` (each field independently present or
absent) is not rejected: each missing id defaults to "unknown" and a
missing timestamp to the current time; a raw-JPEG submission missing any
of the corresponding headers defaults to "testfeed", "teststream" and the
current time.  In particular the all-fields-missing submissions parse to
the fully defaulted submissions. -/
theorem missing_fields_defaulted (f s : Option String) (t : Option ℕ)
    (b : Bytes) (now : ℕ) :
    (∃ sub, parseSubmissionV1 (RequestV1.json f s t (some b)) now =
        Except.ok sub ∧
      sub.buffer = b ∧
      (f = none → sub.feedId = "unknown") ∧
      (s = none → sub.streamId = "unknown") ∧
      (t = none → sub.timestamp = now)) ∧
    (∃ sub, parseSubmissionV1 (RequestV1.raw b f s t) now = Except.ok sub ∧
      sub.buffer = b ∧
      (f = none → sub.feedId = "testfeed") ∧
      (s = none → sub.streamId = "teststream") ∧
      (t = none → sub.timestamp = now)) ∧
    parseSubmissionV1 (RequestV1.json none none none (some b)) now =
      Except.ok ⟨b, "unknown", "unknown", now⟩ ∧
    parseSubmissionV1 (RequestV1.raw b none none none) now =
      Except.ok ⟨b, "testfeed", "teststream", now⟩ := by
  refine ⟨⟨_, rfl, rfl, ?_, ?_, ?_⟩, ⟨_, rfl, rfl, ?_, ?_, ?_⟩, rfl, rfl⟩ <;>
    rintro rfl <;> rfl

theorem missing_fields_defaulted_witness :
    (∃ sub, parseSubmissionV1 (RequestV1.json (some "f1") none none
        (some (Bytes.undecodable []))) 42 = Except.ok sub ∧
      sub.buffer = Bytes.undecodable [] ∧
      ((some "f1" : Option String) = none → sub.feedId = "unknown") ∧
      ((none : Option String) = none → sub.streamId = "unknown") ∧
      ((none : Option ℕ) = none → sub.timestamp = 42)) ∧
    (∃ sub, parseSubmissionV1 (RequestV1.raw (Bytes.undecodable [])
        (some "f1") none none) 42 = Except.ok sub ∧
      sub.buffer = Bytes.undecodable [] ∧
      ((some "f1" : Option String) = none → sub.feedId = "testfeed") ∧
      ((none : Option String) = none → sub.streamId = "teststream") ∧
      ((none : Option ℕ) = none → sub.timestamp = 42)) ∧
    parseSubmissionV1 (RequestV1.json none none none
        (some (Bytes.undecodable []))) 42 =
      Except.ok ⟨Bytes.undecodable [], "unknown", "unknown", 42⟩ ∧
    parseSubmissionV1 (RequestV1.raw (Bytes.undecodable []) none none none) 42 =
      Except.ok ⟨Bytes.undecodable [], "testfeed", "teststream", 42⟩ :=
  missing_fields_defaulted (some "f1") none none (Bytes.undecodable []) 42

/-- Claim C7: on every freeze-detector call in which a fingerprint was
successfully computed, the stored `lastFingerprint` for the key is updated
to the new fingerprint, in every branch of the state machine. -/
theorem lastFingerprint_updated (streamId feedId newHash : String) (now : ℚ)
    (st : SysState) :
    lookupKV ((detectFreeze streamId feedId (some newHash) now st).2).lastFrames
      (lastKeyOf streamId feedId) = some newHash := by
  unfold detectFreeze
  cases hl : lookupKV st.lastFrames (lastKeyOf streamId feedId) with
  | none => simp [hl]
  | some prev =>
    by_cases he : newHash = prev <;> simp [hl, he]

/-- Claim C6: when fingerprint computation fails, the error is recovered
locally: the freeze detector is a no-op returning `isFreeze = false`, the
handler still completes (HTTP 200, `freeze: false` in the body) and the
per-key freeze state is untouched. -/
theorem fingerprint_failure_fail_open (req : RequestV1) (now : ℕ)
    (st : SysState) (m : MetricsV1) (sub : Submission)
    (hp : parseSubmissionV1 req now = Except.ok sub) :
    detectFreeze sub.streamId sub.feedId none (now : ℚ) st = (false, st) ∧
    (handleThumbnailV1 req none now st m).1.httpStatus = 200 ∧
    (handleThumbnailV1 req none now st m).1.freeze = some false ∧
    (handleThumbnailV1 req none now st m).2.1 = st := by
  refine ⟨rfl, ?_, ?_, ?_⟩ <;> simp [handleThumbnailV1, hp, detectFreeze]

theorem fingerprint_failure_fail_open_witness :
    detectFreeze "unknown" "unknown" none ((0 : ℕ) : ℚ) initState = (false, initState) ∧
    (handleThumbnailV1 (RequestV1.json none none none
      (some (Bytes.undecodable []))) none 0 initState initMetricsV1).1.httpStatus = 200 ∧
    (handleThumbnailV1 (RequestV1.json none none none
      (some (Bytes.undecodable []))) none 0 initState initMetricsV1).1.freeze = some false ∧
    (handleThumbnailV1 (RequestV1.json none none none
      (some (Bytes.undecodable []))) none 0 initState initMetricsV1).2.1 = initState := by
  have h := fingerprint_failure_fail_open
    (RequestV1.json none none none (some (Bytes.undecodable []))) 0 initState
    initMetricsV1 ⟨Bytes.undecodable [], "unknown", "unknown", 0⟩ rfl
  exact ⟨h.1, h.2.1, h.2.2.1, h.2.2.2⟩

/-- Claim C1: for every key and fingerprint sequence [A, A, A, B] submitted
in order at strictly increasing instants t0 < t1 < t2 < t3 (starting from
any state with no entry for the key): call 1 reports no freeze; call 2
reports a freeze start with the freeze counter incremented,
`freeze_active` set to 1 and `frozenSince` set to t1; call 3 reports still
frozen with the counter incremented again and `frozenSince` unchanged;
call 4 reports the freeze end, observing the elapsed time t3 − t1 (divided
by 1000: milliseconds to seconds) in the duration histogram, setting
`freeze_active` to 0 and clearing `frozenSince`. -/
theorem freeze_sequence (streamId feedId A B : String) (t0 t1 t2 t3 : ℚ)
    (st0 : SysState) (hAB : A ≠ B)
    (h01 : t0 < t1) (h12 : t1 < t2) (h23 : t2 < t3)
    (hlf : lookupKV st0.lastFrames (lastKeyOf streamId feedId) = none)
    (hfs : lookupKV st0.freezeState (lastKeyOf streamId feedId) = none) :
    let r1 := detectFreeze streamId feedId (some A) t0 st0
    let r2 := detectFreeze streamId feedId (some A) t1 r1.2
    let r3 := detectFreeze streamId feedId (some A) t2 r2.2
    let r4 := detectFreeze streamId feedId (some B) t3 r3.2
    r1.1 = false ∧
    r2.1 = true ∧
    getCount r2.2.freezeTotal (streamId, feedId) =
      getCount st0.freezeTotal (streamId, feedId) + 1 ∧
    lookupKV r2.2.freezeActiveV (streamId, feedId) = some 1 ∧
    lookupKV r2.2.freezeState (lastKeyOf streamId feedId) = some t1 ∧
    r3.1 = true ∧
    getCount r3.2.freezeTotal (streamId, feedId) =
      getCount r2.2.freezeTotal (streamId, feedId) + 1 ∧
    lookupKV r3.2.freezeState (lastKeyOf streamId feedId) = some t1 ∧
    r4.1 = false ∧
    r4.2.freezeDurationObs =
      ((streamId, feedId), (t3 - t1) / 1000) :: r3.2.freezeDurationObs ∧
    lookupKV r4.2.freezeActiveV (streamId, feedId) = some 0 ∧
    lookupKV r4.2.freezeState (lastKeyOf streamId feedId) = none := by
  simp [detectFreeze, hlf, hfs, Ne.symm hAB]

theorem freeze_sequence_witness :
    ("A" : String) ≠ "B" ∧ (0 : ℚ) < 1000 ∧ (1000 : ℚ) < 2000 ∧
      (2000 : ℚ) < 3000 ∧
    lookupKV initState.lastFrames (lastKeyOf "s" "f") = none ∧
    lookupKV initState.freezeState (lastKeyOf "s" "f") = none ∧
    ((detectFreeze "s" "f" (some "A") 0 initState).1 = false ∧
     (detectFreeze "s" "f" (some "A") 1000
        (detectFreeze "s" "f" (some "A") 0 initState).2).1 = true) := by
  have h := freeze_sequence "s" "f" "A" "B" 0 1000 2000 3000 initState
    (by decide) (by norm_num) (by norm_num) (by norm_num) rfl rfl
  exact ⟨by decide, by norm_num, by norm_num, by norm_num, rfl, rfl, h.1, h.2.1⟩

/-- Every key bound in `freezeState` is also bound in `lastFrames`. -/
def KeysSubset (st : SysState) : Prop :=
  ∀ p ∈ st.freezeState, (lookupKV st.lastFrames p.1).isSome

/-- Claim C8: every freeze-detector call preserves the invariant that the
`freezeState` key set is a subset of the `lastFrames` key set, and an
existing `freezeState` entry is deleted by the call exactly when a
fingerprint differing from the stored one arrives for that key. -/
theorem freeze_state_subset_invariant (streamId feedId : String)
    (hash? : Option String) (now : ℚ) (st : SysState) (hinv : KeysSubset st) :
    KeysSubset (detectFreeze streamId feedId hash? now st).2 ∧
    (∀ k, (lookupKV st.freezeState k).isSome →
      (lookupKV (detectFreeze streamId feedId hash? now st).2.freezeState k = none ↔
        (k = lastKeyOf streamId feedId ∧ ∃ h prev, hash? = some h ∧
          lookupKV st.lastFrames k = some prev ∧ h ≠ prev))) := by
  cases hash? with
  | none =>
    refine ⟨hinv, fun k hk => ?_⟩
    simp only [detectFreeze]
    constructor
    · intro hnone
      rw [hnone] at hk
      simp at hk
    · rintro ⟨-, h, -, hh, -⟩
      exact absurd hh (by simp)
  | some newHash =>
    cases hl : lookupKV st.lastFrames (lastKeyOf streamId feedId) with
    | none =>
      have heq : detectFreeze streamId feedId (some newHash) now st =
          (false, SysState.mk
            (insertKV (lastKeyOf streamId feedId) newHash st.lastFrames)
            st.freezeState st.freezeTotal st.freezeActiveV
            st.freezeDurationObs) := by
        simp [detectFreeze, hl]
      rw [heq]
      refine ⟨?_, fun k hk => ?_⟩
      · intro p hp
        exact isSome_lookupKV_insert _ _ _ _ (hinv p hp)
      · constructor
        · intro hnone
          rw [hnone] at hk
          simp at hk
        · rintro ⟨hkeq, h, prev, hh, hprev, -⟩
          rw [hkeq, hl] at hprev
          exact absurd hprev (by simp)
    | some prev =>
      by_cases he : newHash = prev
      · -- fingerprint unchanged: freeze detected, nothing is ever deleted
        subst he
        have hnodel : ∀ k, (lookupKV st.freezeState k).isSome →
            ¬(k = lastKeyOf streamId feedId ∧ ∃ h p', some newHash = some h ∧
              lookupKV st.lastFrames k = some p' ∧ h ≠ p') := by
          rintro k - ⟨hkeq, h, p', hh, hprev, hne⟩
          rw [hkeq, hl] at hprev
          obtain rfl : newHash = h := by injection hh
          obtain rfl : newHash = p' := by injection hprev
          exact hne rfl
        cases hact : lookupKV st.freezeState (lastKeyOf streamId feedId) with
        | some started =>
          have heq : detectFreeze streamId feedId (some newHash) now st =
              (true, SysState.mk
                (insertKV (lastKeyOf streamId feedId) newHash st.lastFrames)
                st.freezeState
                (bumpKV (streamId, feedId) st.freezeTotal)
                st.freezeActiveV st.freezeDurationObs) := by
            simp [detectFreeze, hl, hact]
          rw [heq]
          refine ⟨?_, fun k hk => ?_⟩
          · intro p hp
            exact isSome_lookupKV_insert _ _ _ _ (hinv p hp)
          · constructor
            · intro hnone
              rw [hnone] at hk
              simp at hk
            · intro hcontra
              exact absurd hcontra (hnodel k hk)
        | none =>
          have heq : detectFreeze streamId feedId (some newHash) now st =
              (true, SysState.mk
                (insertKV (lastKeyOf streamId feedId) newHash st.lastFrames)
                (insertKV (lastKeyOf streamId feedId) now st.freezeState)
                (bumpKV (streamId, feedId) st.freezeTotal)
                (insertKV (streamId, feedId) 1 st.freezeActiveV)
                st.freezeDurationObs) := by
            simp [detectFreeze, hl, hact]
          rw [heq]
          refine ⟨?_, fun k hk => ?_⟩
          · intro p hp
            rcases List.mem_cons.mp hp with h1 | h2
            · rw [h1]
              simp
            · exact isSome_lookupKV_insert _ _ _ _ (hinv p h2)
          · constructor
            · intro hnone
              by_cases hkk : lastKeyOf streamId feedId = k
              · rw [← hkk] at hnone
                simp at hnone
              · rw [lookupKV_insert_ne _ _ _ _ hkk] at hnone
                rw [hnone] at hk
                simp at hk
            · intro hcontra
              exact absurd hcontra (hnodel k hk)
      · -- fingerprint changed: an active entry for this key is deleted
        cases hact : lookupKV st.freezeState (lastKeyOf streamId feedId) with
        | some started =>
          have heq : detectFreeze streamId feedId (some newHash) now st =
              (false, SysState.mk
                (insertKV (lastKeyOf streamId feedId) newHash st.lastFrames)
                (eraseKV (lastKeyOf streamId feedId) st.freezeState)
                st.freezeTotal
                (insertKV (streamId, feedId) 0 st.freezeActiveV)
                (((streamId, feedId), (now - started) / 1000) ::
                  st.freezeDurationObs)) := by
            simp [detectFreeze, hl, he, hact]
          rw [heq]
          refine ⟨?_, fun k hk => ?_⟩
          · intro p hp
            exact isSome_lookupKV_insert _ _ _ _
              (hinv p (mem_of_mem_eraseKV _ _ _ hp))
          · constructor
            · intro hnone
              by_cases hkk : k = lastKeyOf streamId feedId
              · exact ⟨hkk, newHash, prev, rfl, hkk ▸ hl, he⟩
              · rw [lookupKV_erase_ne _ _ _ (fun hkk2 => hkk hkk2.symm)] at hnone
                rw [hnone] at hk
                simp at hk
            · rintro ⟨hkeq, -⟩
              rw [hkeq]
              exact lookupKV_erase_self _ _
        | none =>
          have heq : detectFreeze streamId feedId (some newHash) now st =
              (false, SysState.mk
                (insertKV (lastKeyOf streamId feedId) newHash st.lastFrames)
                st.freezeState st.freezeTotal st.freezeActiveV
                st.freezeDurationObs) := by
            simp [detectFreeze, hl, he, hact]
          rw [heq]
          refine ⟨?_, fun k hk => ?_⟩
          · intro p hp
            exact isSome_lookupKV_insert _ _ _ _ (hinv p hp)
          · constructor
            · intro hnone
              rw [hnone] at hk
              simp at hk
            · rintro ⟨hkeq, -⟩
              rw [hkeq, hact] at hk
              simp at hk

theorem freeze_state_subset_invariant_witness :
    KeysSubset ⟨[("a:b", "h1")], [("a:b", 5)], [], [], []⟩ ∧
    KeysSubset (detectFreeze "a" "b" (some "h2") 7
      ⟨[("a:b", "h1")], [("a:b", 5)], [], [], []⟩).2 ∧
    ((lookupKV (⟨[("a:b", "h1")], [("a:b", 5)], [], [], []⟩ :
        SysState).freezeState "a:b").isSome ∧
      (lookupKV (detectFreeze "a" "b" (some "h2") 7
          ⟨[("a:b", "h1")], [("a:b", 5)], [], [], []⟩).2.freezeState "a:b" = none ↔
        ("a:b" = lastKeyOf "a" "b" ∧ ∃ h prev, (some "h2" : Option String) = some h ∧
          lookupKV (⟨[("a:b", "h1")], [("a:b", 5)], [], [], []⟩ :
            SysState).lastFrames "a:b" = some prev ∧ h ≠ prev))) := by
  have hinv : KeysSubset ⟨[("a:b", "h1")], [("a:b", 5)], [], [], []⟩ := by
    intro p hp
    rcases List.mem_cons.mp hp with h1 | h2
    · rw [h1]; rfl
    · exact absurd h2 (List.not_mem_nil p)
  have hk : (lookupKV (⟨[("a:b", "h1")], [("a:b", 5)], [], [], []⟩ :
      SysState).freezeState "a:b").isSome := rfl
  have h := freeze_state_subset_invariant "a" "b" (some "h2") 7
    ⟨[("a:b", "h1")], [("a:b", 5)], [], [], []⟩ hinv
  exact ⟨hinv, h.1, hk, h.2 "a:b" hk⟩

/- ## Exactly-one-counter predicates for the metrics recorder -/

/-- Only `ok_total` was bumped (at the given label); the other two
status counters are completely unchanged. -/
def IncOnlyOk (lbl : String × String) (m m' : MetricsV3) : Prop :=
  m'.okTotal = bumpKV lbl m.okTotal ∧ m'.blackTotal = m.blackTotal ∧
    m'.corruptTotal = m.corruptTotal

/-- Only `black_total` was bumped (at the given label). -/
def IncOnlyBlack (lbl : String × String) (m m' : MetricsV3) : Prop :=
  m'.okTotal = m.okTotal ∧ m'.blackTotal = bumpKV lbl m.blackTotal ∧
    m'.corruptTotal = m.corruptTotal

/-- Only `corrupt_total` was bumped (at the given label). -/
def IncOnlyCorrupt (lbl : String × String) (m m' : MetricsV3) : Prop :=
  m'.okTotal = m.okTotal ∧ m'.blackTotal = m.blackTotal ∧
    m'.corruptTotal = bumpKV lbl m.corruptTotal

/-- Claim C3 counterexample: the V1 handler sets the
`thumbnail_latest_timestamp_seconds` gauge to
`Math.floor(Date.now() / 1000)` — the processing time in whole seconds —
and not to the submission's embedded timestamp.  For a submission carrying
timestamp 1700000000000 processed at 1700000005000 the gauge reads
1700000005, which is neither the submission's timestamp nor the
submission's timestamp in seconds. -/
theorem latest_gauge_counterexample :
    lookupKV (handleThumbnailV1 (RequestV1.json (some "f") (some "s")
        (some 1700000000000) (some (Bytes.undecodable []))) none 1700000005000
        initState initMetricsV1).2.2.latest ("s", "f") = some 1700000005 ∧
    (1700000005 : ℕ) ≠ 1700000000000 ∧
    (1700000005 : ℕ) ≠ 1700000000000 / 1000 := by
  refine ⟨rfl, by decide, by decide⟩

/-- Claim C3 (amended): on every classification exactly one of the
`ok_total` / `black_total` / `corrupt_total` counters, labelled by feed
and stream, is incremented (in both the V2 and the V3 recorder), and the
`latest_timestamp_seconds` gauge is set to the current processing time in
whole seconds, `Math.floor(Date.now() / 1000)` — which equals the
submission's timestamp only when that timestamp defaulted to the
current time. -/
theorem metrics_recording (b : Bytes) (feedId streamId : String)
    (m : MetricsV3) (req : RequestV1) (hash? : Option String) (now : ℕ)
    (st : SysState) (mv1 : MetricsV1) (sub : Submission)
    (hp : parseSubmissionV1 req now = Except.ok sub) :
    (IncOnlyOk (feedId, streamId) m
        (recordStatusV2 (classifyV2 b) feedId streamId m) ∨
      IncOnlyBlack (feedId, streamId) m
        (recordStatusV2 (classifyV2 b) feedId streamId m) ∨
      IncOnlyCorrupt (feedId, streamId) m
        (recordStatusV2 (classifyV2 b) feedId streamId m)) ∧
    (IncOnlyOk (feedId, streamId) m
        (recordStatusV3 (analyzeImage b) feedId streamId m) ∨
      IncOnlyBlack (feedId, streamId) m
        (recordStatusV3 (analyzeImage b) feedId streamId m) ∨
      IncOnlyCorrupt (feedId, streamId) m
        (recordStatusV3 (analyzeImage b) feedId streamId m)) ∧
    lookupKV (handleThumbnailV1 req hash? now st mv1).2.2.latest
      (sub.streamId, sub.feedId) = some (now / 1000) := by
  refine ⟨?_, ?_, ?_⟩
  · cases hd : decode b with
    | none =>
      refine Or.inr (Or.inr ?_)
      simp [classifyV2, hd, recordStatusV2, IncOnlyCorrupt]
    | some img =>
      by_cases hb : isBlackFrame img
      · refine Or.inr (Or.inl ?_)
        simp [classifyV2, hd, hb, recordStatusV2, IncOnlyBlack]
      · refine Or.inl ?_
        simp [classifyV2, hd, hb, recordStatusV2, IncOnlyOk]
  · cases hd : decode b with
    | none =>
      refine Or.inr (Or.inr ?_)
      simp [analyzeImage, hd, recordStatusV3, IncOnlyCorrupt]
    | some img =>
      by_cases hb : blackRatio img > 9 / 10
      · refine Or.inr (Or.inl ?_)
        simp [analyzeImage, hd, hb, recordStatusV3, IncOnlyBlack]
      · refine Or.inl ?_
        simp [analyzeImage, hd, hb, recordStatusV3, IncOnlyOk]
  · simp [handleThumbnailV1, hp]

theorem metrics_recording_witness :
    (IncOnlyOk ("f", "s") initMetricsV3
        (recordStatusV2 (classifyV2 (Bytes.undecodable [])) "f" "s"
          initMetricsV3) ∨
      IncOnlyBlack ("f", "s") initMetricsV3
        (recordStatusV2 (classifyV2 (Bytes.undecodable [])) "f" "s"
          initMetricsV3) ∨
      IncOnlyCorrupt ("f", "s") initMetricsV3
        (recordStatusV2 (classifyV2 (Bytes.undecodable [])) "f" "s"
          initMetricsV3)) ∧
    (IncOnlyOk ("f", "s") initMetricsV3
        (recordStatusV3 (analyzeImage (Bytes.undecodable [])) "f" "s"
          initMetricsV3) ∨
      IncOnlyBlack ("f", "s") initMetricsV3
        (recordStatusV3 (analyzeImage (Bytes.undecodable [])) "f" "s"
          initMetricsV3) ∨
      IncOnlyCorrupt ("f", "s") initMetricsV3
        (recordStatusV3 (analyzeImage (Bytes.undecodable [])) "f" "s"
          initMetricsV3)) ∧
    lookupKV (handleThumbnailV1 (RequestV1.json none none none
        (some (Bytes.undecodable []))) none 2000 initState
        initMetricsV1).2.2.latest ("unknown", "unknown") = some 2 :=
  metrics_recording (Bytes.undecodable []) "f" "s" initMetricsV3
    (RequestV1.json none none none (some (Bytes.undecodable []))) none 2000
    initState initMetricsV1 ⟨Bytes.undecodable [], "unknown", "unknown", 2000⟩
    rfl

/-- Claim C4: for the JSON submission with feedId "f1", streamId "s1",
timestamp 1700000000000 and a thumbnail decoding to a non-black image, the
V3 handler produces status "ok", exactly one `ok_total` increment labelled
("f1", "s1"), and the archive key "f1/s1/2023-11-14T22:13:20.000Z.jpg"
(feedId before streamId, ISO timestamp). -/
theorem json_submission_scenario (img : Image) (m : MetricsV3)
    (hnb : ¬ blackRatio img > 9 / 10) :
    (handleThumbnailV3 ⟨"f1", "s1", 1700000000000, Bytes.decodable img⟩ m).1 =
      "ok" ∧
    (handleThumbnailV3 ⟨"f1", "s1", 1700000000000, Bytes.decodable img⟩ m).2.1 =
      "f1/s1/2023-11-14T22:13:20.000Z.jpg" ∧
    IncOnlyOk ("f1", "s1") m
      (handleThumbnailV3 ⟨"f1", "s1", 1700000000000, Bytes.decodable img⟩ m).2.2 ∧
    getCount (handleThumbnailV3 ⟨"f1", "s1", 1700000000000,
        Bytes.decodable img⟩ m).2.2.okTotal ("f1", "s1") =
      getCount m.okTotal ("f1", "s1") + 1 := by
  have hst : analyzeImage (Bytes.decodable img) = "ok" := by
    simp [analyzeImage, decode, hnb]
  refine ⟨hst, ?_, ?_, ?_⟩
  · show "f1" ++ "/" ++ "s1" ++ "/" ++ toISOString 1700000000000 ++ ".jpg" =
      "f1/s1/2023-11-14T22:13:20.000Z.jpg"
    rfl
  · simp [handleThumbnailV3, hst, recordStatusV3, IncOnlyOk]
  · simp [handleThumbnailV3, hst, recordStatusV3]

theorem json_submission_scenario_witness :
    ¬ blackRatio ⟨1, 1, [(255, 255, 255)]⟩ > 9 / 10 ∧
    (handleThumbnailV3 ⟨"f1", "s1", 1700000000000,
        Bytes.decodable ⟨1, 1, [(255, 255, 255)]⟩⟩ initMetricsV3).1 = "ok" ∧
    (handleThumbnailV3 ⟨"f1", "s1", 1700000000000,
        Bytes.decodable ⟨1, 1, [(255, 255, 255)]⟩⟩ initMetricsV3).2.1 =
      "f1/s1/2023-11-14T22:13:20.000Z.jpg" ∧
    IncOnlyOk ("f1", "s1") initMetricsV3
      (handleThumbnailV3 ⟨"f1", "s1", 1700000000000,
        Bytes.decodable ⟨1, 1, [(255, 255, 255)]⟩⟩ initMetricsV3).2.2 := by
  have hnb : ¬ blackRatio ⟨1, 1, [(255, 255, 255)]⟩ > 9 / 10 := by
    norm_num [blackRatio, List.countP, List.countP.go]
  have h := json_submission_scenario ⟨1, 1, [(255, 255, 255)]⟩ initMetricsV3 hnb
  exact ⟨hnb, h.1, h.2.1, h.2.2.1⟩

end Thumbnail
